import Mathlib

/-!
Verification of the cross-system reconciliation workflow of `src/main.py`
(FastAPIZAIA_FLEXGE): a shallow embedding of the enrollment/billing
orchestration logic, with theorems settling the specification claims.

Conventions of the embedding:
* Machine timestamps are `Int` seconds; calendar dates are also `Int`
  (the code only compares and formats them).
* Monetary values are `Int` (the code passes floats through unchanged;
  no claim depends on float rounding).
* Remote HTTP interactions are modelled as pure functions of an
  `AsaasState` snapshot of the billing platform (and of the enrollment
  platform's page list); each workflow additionally returns the list of
  HTTP side effects it issued, in order.
* Python exceptions become `Except` values: `fastapi.HTTPException`
  becomes the `HTTPException` structure below.
-/

/-- A student record as returned by the Flexge enrollment API
(`docs` entries in `get_students`, src/main.py line 82). `lastAccess`
is the optional timestamp used by `check_inatividade`. -/
structure Student where
  id : String
  email : String
  name : String
  phone : Option String
  cpf : Option String
  lastAccess : Option Int
deriving Repr, DecidableEq

/-- Billing type of an Asaas payment or subscription ("BOLETO",
"CREDIT_CARD", "UNDEFINED"). -/
inductive BillingType
  | boleto
  | creditCard
  | undef
deriving Repr, DecidableEq

/-- Status of an Asaas payment ("PENDING", "RECEIVED", "OVERDUE"). -/
inductive PayStatus
  | pending
  | received
  | overdue
deriving Repr, DecidableEq

/-- A customer record on the billing platform. -/
structure Customer where
  id : String
  email : String
  name : String
  mobilePhone : Option String
  cpfCnpj : Option String
deriving Repr, DecidableEq

/-- A payment obligation on the billing platform. -/
structure Payment where
  id : String
  customer : String
  billingType : BillingType
  value : Int
  dueDate : Int
  status : PayStatus
  subscription : Option String
  bankSlipUrl : Option String
  invoiceUrl : Option String
deriving Repr, DecidableEq

/-- A subscription on the billing platform; `status` is the platform
string compared against "ACTIVE" by the code. -/
structure Subscription where
  id : String
  customer : String
  status : String
  billingType : BillingType
  nextDueDate : Int
deriving Repr, DecidableEq

/-- Snapshot of the billing platform (Asaas) remote state. -/
structure AsaasState where
  customers : List Customer
  payments : List Payment
  subscriptions : List Subscription
deriving Repr, DecidableEq

/-- `fastapi.HTTPException(status_code, detail)`. -/
structure HTTPException where
  statusCode : Nat
  detail : String
deriving Repr, DecidableEq

/-- Payload of the customer-creation POST issued by
`get_or_create_customer` (src/main.py lines 128-135). -/
structure CustomerPayload where
  name : String
  email : String
  mobilePhone : Option String
  cpfCnpj : Option String
deriving Repr, DecidableEq

/-- Payload of the payment-creation POST issued by `create_payment`
(src/main.py lines 141-147). -/
structure PaymentPayload where
  customer : String
  billingType : BillingType
  value : Int
  dueDate : Int
  description : String
deriving Repr, DecidableEq

/-- An HTTP side effect issued against a remote platform, in the order
the code issues them. -/
inductive Effect
  | getCustomers (email : String)
  | postCustomer (payload : CustomerPayload)
  | postPayment (payload : PaymentPayload)
  | getPayments (query : String)
  | getSubscriptions (customer : String)
  | putSubscription (id : String) (billingType : BillingType)
  | postZaiaMessage (phone : String)
  | patchStudent (id : String) (action : String)
  | sendEmail (recipient : String)
deriving Repr, DecidableEq

/-- Effects that change state on the billing or enrollment platform
(POST/PUT/PATCH); GET queries and notification sends are not mutations. -/
def Effect.isMutation : Effect → Bool
  | .postCustomer _ => true
  | .postPayment _ => true
  | .putSubscription _ _ => true
  | .patchStudent _ _ => true
  | _ => false

/-- Whether an effect is the customer-creation POST. -/
def Effect.isPostCustomer : Effect → Bool
  | .postCustomer _ => true
  | _ => false

/-- Python `re.sub(r"\D", "", s)`: keep only the digits of a string. -/
def digitsOnly (s : String) : String :=
  String.mk (s.data.filter Char.isDigit)

/-- Python `s[-n:]`: the last `n` characters (the whole string when it
is shorter than `n`). -/
def pythonTail (s : String) (n : Nat) : String :=
  String.mk (s.data.drop (s.data.length - n))

/-- Python `s.lower()`: lowercase every character. -/
def pyLower (s : String) : String :=
  String.mk (s.data.map Char.toLower)

/-- A Python whitespace character as stripped by `str.strip()`. -/
def isPySpace (c : Char) : Bool :=
  c = ' ' || c = '\t' || c = '\n' || c = '\r' || c = '\x0b' || c = '\x0c'

/-- Python `s.strip()`: drop leading and trailing whitespace. -/
def pyStrip (s : String) : String :=
  String.mk (((s.data.dropWhile isPySpace).reverse.dropWhile isPySpace).reverse)

/-- Python `s or None` on a string: `None` exactly when the string is
empty. -/
def strOrNone (s : String) : Option String :=
  if s = "" then none else some s

/-- Email normalization used by `get_or_create_customer`
(src/main.py line 118): `student["email"].lower().strip()`. -/
def normalizeEmail (e : String) : String :=
  pyStrip (pyLower e)

/-- `buscar_aluno_por_email` (src/main.py lines 87-96): walk the pages
returned by `get_students` starting at page 1, stopping at a missing or
empty `docs` list, returning the first case-insensitive email match.
The enrollment platform's paged listing is the `pages` list. -/
def buscar_aluno_por_email (pages : List (List Student)) (email : String) :
    Option Student :=
  match pages with
  | [] => none
  | docs :: rest =>
    if docs = [] then none
    else
      match docs.find? (fun aluno => pyLower aluno.email == pyLower email) with
      | some aluno => some aluno
      | none => buscar_aluno_por_email rest email

/-- `get_or_create_customer` (src/main.py lines 117-137): normalize the
email, look customers up by it, return the first match's id, otherwise
POST a new customer built from the student profile (digits-only phone
truncated to the last 11 digits, digits-only cpf truncated to the last
14, empty strings becoming `None`). The remote GET is modelled as a
successful (HTTP 200) query returning the state's customers with that
exact email; the POST as a successful creation assigning a fresh id.
Returns the customer id, the updated billing state and the effects. -/
def get_or_create_customer (student : Student) (st : AsaasState) :
    String × AsaasState × List Effect :=
  let email := normalizeEmail student.email
  match st.customers.filter (fun c => c.email == email) with
  | c :: _ => (c.id, st, [Effect.getCustomers email])
  | [] =>
    let payload : CustomerPayload :=
      { name := pyStrip student.name
        email := email
        mobilePhone := strOrNone (pythonTail (digitsOnly (student.phone.getD "")) 11)
        cpfCnpj := strOrNone (pythonTail (digitsOnly (student.cpf.getD "")) 14) }
    let newId := "cus" ++ toString st.customers.length
    let newCustomer : Customer :=
      { id := newId
        email := email
        name := payload.name
        mobilePhone := payload.mobilePhone
        cpfCnpj := payload.cpfCnpj }
    (newId,
     { st with customers := st.customers ++ [newCustomer] },
     [Effect.getCustomers email, Effect.postCustomer payload])

/-- Outcome of the remote `POST /payments` as observed by
`create_payment` before exception handling: a parsed success body, a
non-success status with response text, or a raised `requests`
exception (timeout, connection failure). -/
inductive AsaasResp
  | ok (body : Payment)
  | err (status : Nat) (text : String)
  | netFail
deriving Repr, DecidableEq

/-- A Python exception escaping the body of a `try` block in this
module: either a `fastapi.HTTPException` raised by the code itself or
a `requests` exception raised by the HTTP library. -/
inductive PyExc
  | httpException (e : HTTPException)
  | requestsError (msg : String)
deriving Repr, DecidableEq

/-- The `try` body of `create_payment` (src/main.py lines 149-164):
on HTTP 200 return the parsed body; otherwise print the status and
text and raise `HTTPException(500, "Erro Asaas (<status>) ao criar
pagamento")`; a `requests` failure raises its own exception. -/
def create_payment_try (resp : AsaasResp) : Except PyExc Payment :=
  match resp with
  | .ok body => Except.ok body
  | .err status _text =>
      Except.error (PyExc.httpException
        ⟨500, "Erro Asaas (" ++ toString status ++ ") ao criar pagamento"⟩)
  | .netFail => Except.error (PyExc.requestsError "requests exception")

/-- `create_payment` (src/main.py lines 139-168): the `except
Exception` clause catches every exception escaping the `try` body —
including the `HTTPException` the body itself raised — and replaces it
with `HTTPException(500, "Erro interno ao gerar pagamento")`. -/
def create_payment (resp : AsaasResp) : Except HTTPException Payment :=
  match create_payment_try resp with
  | Except.ok p => Except.ok p
  | Except.error _ => Except.error ⟨500, "Erro interno ao gerar pagamento"⟩

/-- Fresh payment id assigned by the billing platform. -/
def newPaymentId (st : AsaasState) : String :=
  "pay" ++ toString st.payments.length

/-- Modelled from the spec: the billing platform's successful handling
of `POST /payments` (spec 4.2 `createPayment`) — the missing remote
side of `create_payment`. The platform stores a new obligation with
the payload's fields, `PENDING` status while the due date has not
passed, a bank-slip URL for the fixed instrument and a generic invoice
URL. -/
def asaasCreatePayment (st : AsaasState) (p : PaymentPayload) (today : Int) :
    AsaasState × Payment :=
  let pay : Payment :=
    { id := newPaymentId st
      customer := p.customer
      billingType := p.billingType
      value := p.value
      dueDate := p.dueDate
      status := if today ≤ p.dueDate then PayStatus.pending else PayStatus.overdue
      subscription := none
      bankSlipUrl :=
        if p.billingType = BillingType.boleto
        then some ("slip-" ++ newPaymentId st) else none
      invoiceUrl := some ("inv-" ++ newPaymentId st) }
  ({ st with payments := st.payments ++ [pay] }, pay)

/-- The pending fixed-instrument obligations of a customer: the query
filter sent by `get_latest_unpaid_payment` (src/main.py lines 172-181:
`customer`, `status=PENDING`, `billingType=BOLETO`). -/
def pendingBoletos (st : AsaasState) (customer_id : String) : List Payment :=
  st.payments.filter (fun p =>
    p.customer == customer_id &&
    (p.status == PayStatus.pending && p.billingType == BillingType.boleto))

/-- The element with the smallest due date, starting from `x`. -/
def minByDueDate (x : Payment) (xs : List Payment) : Payment :=
  xs.foldl (fun best p => if p.dueDate < best.dueDate then p else best) x

/-- `get_latest_unpaid_payment` (src/main.py lines 170-203): query the
customer's PENDING BOLETO payments sorted by ascending due date with
`limit=1` and return the first, `none` when the list is empty. The
remote evaluation of `sort=dueDate, order=ASC, limit=1` is modelled
from the spec (4.2 `findLatestPendingPayment`: "sorted by ascending
due date, first result only") as the minimum-due-date element. -/
def get_latest_unpaid_payment (st : AsaasState) (customer_id : String) :
    Option Payment :=
  match pendingBoletos st customer_id with
  | [] => none
  | x :: xs => some (minByDueDate x xs)

/-- Days of the Python `timedelta` between two timestamps in seconds:
`(hoje - last).days` floors towards minus infinity. -/
def diasSemAcesso (hoje last : Int) : Int :=
  Int.fdiv (hoje - last) 86400

/-- Per-student action of the inactivity scan. -/
inductive ScanAction
  | skipped
  | noAction
  | warn
  | disable
deriving Repr, DecidableEq

/-- The per-student classification of `check_inatividade`
(src/main.py lines 446-461): students without a recorded `lastAccess`
are skipped; otherwise `dias >= 10` disables, `dias >= 8` warns and
anything below takes no action. -/
def classify (hoje : Int) (lastAccess : Option Int) : ScanAction :=
  match lastAccess with
  | none => ScanAction.skipped
  | some last =>
    let dias := diasSemAcesso hoje last
    if 10 ≤ dias then ScanAction.disable
    else if 8 ≤ dias then ScanAction.warn
    else ScanAction.noAction

/-- One student step of the scan loop: the disable branch issues a
`PATCH students/disable` and increments `bloqueados`; the warn branch
queues the inactivity email as a background task and increments
`avisados`; the other branches do nothing. Returns
`(bloqueados increment, avisados increment, effects)`. -/
def scanStudent (hoje : Int) (aluno : Student) : Nat × Nat × List Effect :=
  match classify hoje aluno.lastAccess with
  | ScanAction.disable => (1, 0, [Effect.patchStudent aluno.id "disable"])
  | ScanAction.warn => (0, 1, [Effect.sendEmail aluno.email])
  | _ => (0, 0, [])

/-- The page walk of `check_inatividade` (src/main.py lines 435-465):
process pages until a missing or empty `docs` list, accumulating the
`bloqueados` and `avisados` counters. -/
def check_inatividade (hoje : Int) (pages : List (List Student)) : Nat × Nat :=
  match pages with
  | [] => (0, 0)
  | docs :: rest =>
    if docs = [] then (0, 0)
    else
      let here := docs.foldl
        (fun (acc : Nat × Nat) aluno =>
          let r := scanStudent hoje aluno
          (acc.1 + r.1, acc.2 + r.2.1))
        (0, 0)
      let there := check_inatividade hoje rest
      (here.1 + there.1, here.2 + there.2)

/-- `str()` of a `fastapi.HTTPException` (starlette renders it as
`"<status_code>: <detail>"`), used when an outer handler wraps a
caught exception's text. -/
def httpExceptionStr (e : HTTPException) : String :=
  toString e.statusCode ++ ": " ++ e.detail

/-- `str()` of the `requests.HTTPError` raised by `raise_for_status()`
on a response with the given status; the model keeps only the status
prefix of the library's message. -/
def requestsHTTPErrorStr (status : Nat) : String :=
  toString status ++ " Error"

/-- Request body of `/enviar-boleto` (`PaymentRequest`, src/main.py
lines 64-67). -/
structure PaymentRequest where
  email : String
  valor : Int
  vencimento : Int
deriving Repr, DecidableEq

/-- Success body returned by `/enviar-boleto`. -/
structure BoletoResp where
  status : String
  link : Option String
deriving Repr, DecidableEq

/-- `enviar_boleto` (src/main.py lines 470-489): resolve the student
(404 outside the `try` when absent), resolve the customer, create the
BOLETO payment, pick `bankSlipUrl or invoiceUrl` as link, and — when
the student's phone has any digits — send the WhatsApp message through
Zaia, whose `raise_for_status()` (src/main.py line 241) raises on a
status `>= 400`; that exception is caught by the route's `except
Exception` and re-raised as `HTTPException(500, str(e))`. Customer
resolution and payment creation are modelled on their success path
(the remote answers 200); the Zaia response status is the
`zaiaStatus` argument. -/
def enviar_boleto (req : PaymentRequest) (pages : List (List Student))
    (st : AsaasState) (today : Int) (zaiaStatus : Nat) :
    Except HTTPException BoletoResp × List Effect :=
  match buscar_aluno_por_email pages req.email with
  | none => (Except.error ⟨404, "Aluno não encontrado"⟩, [])
  | some aluno =>
    let gc := get_or_create_customer aluno st
    let payload : PaymentPayload :=
      ⟨gc.1, BillingType.boleto, req.valor, req.vencimento, "Mensalidade"⟩
    let pay := (asaasCreatePayment gc.2.1 payload today).2
    let effs := gc.2.2 ++ [Effect.postPayment payload]
    let link := pay.bankSlipUrl.orElse (fun _ => pay.invoiceUrl)
    let whatsapp := digitsOnly (aluno.phone.getD "")
    if whatsapp = "" then (Except.ok ⟨"enviado", link⟩, effs)
    else
      let effs2 := effs ++ [Effect.postZaiaMessage whatsapp]
      if zaiaStatus < 400 then (Except.ok ⟨"enviado", link⟩, effs2)
      else (Except.error ⟨500, requestsHTTPErrorStr zaiaStatus⟩, effs2)

/-- The fictitious student `zaia_reenviar_boleto` builds from the bare
email (src/main.py line 499: `aluno = {"email": email, "name": email}`);
the enrollment platform is never consulted. -/
def fictStudent (email : String) : Student :=
  { id := ""
    email := email
    name := email
    phone := none
    cpf := none
    lastAccess := none }

/-- Response body of `/zaia/reenviar-boleto`: either one of the `erro`
dictionaries (returned with HTTP 200, not raised) or the pending-charge
summary. -/
inductive ZaiaResp
  | erro (msg : String)
  | cobranca (nome : String) (vencimento : Int) (valor : Int)
      (boleto_url : Option String)
deriving Repr, DecidableEq

/-- `zaia_reenviar_boleto` (src/main.py lines 491-547): reject an empty
email; build the fictitious student and resolve/create the billing
customer from it; GET the customer's subscriptions (no status filter)
and take the first with status "ACTIVE", returning the
no-active-subscription `erro` dictionary when there is none; GET the
subscription's PENDING payments and take the first in platform order,
returning the no-pending-charge `erro` dictionary when there is none;
otherwise surface name (the email), due date, value and
`bankSlipUrl or invoiceUrl`. The remote GETs are modelled as
successful queries over the billing state. -/
def zaia_reenviar_boleto (email : String) (st : AsaasState) :
    ZaiaResp × List Effect :=
  if email = "" then (ZaiaResp.erro "Email é obrigatório", [])
  else
    let gc := get_or_create_customer (fictStudent email) st
    let cid := gc.1
    let st1 := gc.2.1
    let effs := gc.2.2 ++ [Effect.getSubscriptions cid]
    let assinaturas := st1.subscriptions.filter (fun s => s.customer == cid)
    match assinaturas.find? (fun s => s.status == "ACTIVE") with
    | none => (ZaiaResp.erro "Nenhuma assinatura ativa encontrada", effs)
    | some sub =>
      let effs2 := effs ++ [Effect.getPayments sub.id]
      match st1.payments.filter (fun p =>
          p.subscription == some sub.id && p.status == PayStatus.pending) with
      | [] => (ZaiaResp.erro "Nenhuma cobrança pendente encontrada", effs2)
      | c :: _ =>
        (ZaiaResp.cobranca (fictStudent email).name c.dueDate c.value
          (c.bankSlipUrl.orElse (fun _ => c.invoiceUrl)), effs2)

/-- Modelled from the spec: the billing platform's handling of
`PUT /subscriptions/{id}` with `updatePendingPayments=true` (spec 4.6:
billing type switched, `nextDueDate` set to today, status ACTIVE,
pending obligations adopt the new billing type remotely). -/
def asaasUpdateSubscription (st : AsaasState) (subId : String)
    (bt : BillingType) (today : Int) : AsaasState × Subscription :=
  let upd : Subscription → Subscription := fun s =>
    if s.id = subId
    then { s with billingType := bt, nextDueDate := today, status := "ACTIVE" }
    else s
  let updP : Payment → Payment := fun p =>
    if p.subscription = some subId && decide (p.status = PayStatus.pending)
    then { p with billingType := bt }
    else p
  let st2 : AsaasState :=
    { st with
        subscriptions := st.subscriptions.map upd
        payments := st.payments.map updP }
  (st2,
   { id := subId
     customer := ""
     status := "ACTIVE"
     billingType := bt
     nextDueDate := today })

/-- Success body returned by `/trocar-assinatura-cartao`. -/
structure TrocaResp where
  mensagem : String
  assinatura_id : String
  proxima_cobranca : Option Int
  tipo_pagamento : Option BillingType
deriving Repr, DecidableEq

/-- `trocar_assinatura_cartao` (src/main.py lines 565-632). The whole
body sits in a `try` whose handlers are `except HTTPError` and `except
Exception`; a `fastapi.HTTPException` raised inside the body (the 404
for a missing student or missing active subscription) is not an
`HTTPError`, so it is caught by `except Exception` and replaced by
`HTTPException(500, "Erro inesperado: " + str(e))`. Steps: resolve the
student, resolve/create the customer, GET the customer's ACTIVE
subscriptions with `limit=1`, and on a hit PUT the subscription to
CREDIT_CARD with `updatePendingPayments=true`. Remote GET/PUT are
modelled as successful queries/updates over the billing state. -/
def trocar_assinatura_cartao (email : String) (pages : List (List Student))
    (st : AsaasState) (today : Int) :
    Except HTTPException TrocaResp × List Effect :=
  match buscar_aluno_por_email pages email with
  | none =>
    (Except.error
      ⟨500, "Erro inesperado: " ++ httpExceptionStr ⟨404, "Aluno não encontrado"⟩⟩, [])
  | some aluno =>
    let gc := get_or_create_customer aluno st
    let cid := gc.1
    let st1 := gc.2.1
    let effs := gc.2.2 ++ [Effect.getSubscriptions cid]
    match (st1.subscriptions.filter (fun s =>
        s.customer == cid && s.status == "ACTIVE")).take 1 with
    | [] =>
      (Except.error
        ⟨500, "Erro inesperado: " ++
          httpExceptionStr ⟨404, "Assinatura ativa não encontrada"⟩⟩, effs)
    | sub :: _ =>
      let upd := asaasUpdateSubscription st1 sub.id BillingType.creditCard today
      (Except.ok
        { mensagem := "Assinatura atualizada para cartão com sucesso."
          assinatura_id := sub.id
          proxima_cobranca := some upd.2.nextDueDate
          tipo_pagamento := some upd.2.billingType },
       effs ++ [Effect.putSubscription sub.id BillingType.creditCard])

/-- One remote HTTP call site of src/main.py: where it occurs and the
`timeout` argument passed to the HTTP client, `none` when the call is
issued without any timeout. -/
structure HttpCallSite where
  site : String
  timeoutArg : Option Nat
deriving Repr, DecidableEq

/-- Every remote HTTP call site of src/main.py in line order, with its
`timeout` argument: lines 84, 101, 105, 123, 135, 150, 184, 213, 237,
252, 265, 303, 343, 505, 521, 550, 575, 600, 644, 669. The two OpenAI
SDK calls are HTTP calls too; `analyze_image_with_gpt4` passes no
timeout and `gerar_resposta_gpt` passes `timeout=10`. -/
def httpCallSites : List HttpCallSite := [
  ⟨"get_students GET /students", some 10⟩,
  ⟨"patch_student_action PATCH /students/action", some 10⟩,
  ⟨"buscar_erros_gramatica GET /students/id/studied-grammars", some 10⟩,
  ⟨"get_or_create_customer GET /customers", none⟩,
  ⟨"get_or_create_customer POST /customers", none⟩,
  ⟨"create_payment POST /payments", some 10⟩,
  ⟨"get_latest_unpaid_payment GET /payments", some 10⟩,
  ⟨"create_checkout_flexivel POST /payments", some 10⟩,
  ⟨"send_whatsapp_via_zaia POST /external-generative-message/create", some 10⟩,
  ⟨"listar_cobrancas_assinatura GET /subscriptions", some 10⟩,
  ⟨"listar_cobrancas_assinatura GET /subscriptions/id/payments", some 10⟩,
  ⟨"analyze_image_with_gpt4 OpenAI chat.completions", none⟩,
  ⟨"gerar_resposta_gpt OpenAI chat.completions", some 10⟩,
  ⟨"zaia_reenviar_boleto GET /subscriptions", none⟩,
  ⟨"zaia_reenviar_boleto GET /payments", none⟩,
  ⟨"module-level POST /subscriptions/id/changeBillingType", some 10⟩,
  ⟨"trocar_assinatura_cartao GET /subscriptions", some 10⟩,
  ⟨"trocar_assinatura_cartao PUT /subscriptions/id", some 10⟩,
  ⟨"trocar_assinatura_boleto GET /subscriptions", some 10⟩,
  ⟨"trocar_assinatura_boleto PUT /subscriptions/id", some 10⟩ ]

/-- A top-level statement of src/main.py as far as module evaluation is
concerned: a statement binding a module-scope name (import, class,
def, assignment), an expression statement binding nothing, a route
definition (binds the handler name and registers the path on the app),
or the `try/except requests.exceptions.HTTPError` block of lines
549-563 whose body reads the name `sub_id`. -/
inductive TopStmt
  | bind (name : String)
  | expr (desc : String)
  | route (path : String) (name : String)
  | tryChangeBilling
deriving Repr, DecidableEq

/-- A Python exception aborting module evaluation. -/
inductive PyError
  | nameError (name : String)
deriving Repr, DecidableEq

/-- Sequential evaluation of module-level statements: `bind` and
`route` extend the environment of module-scope names (a route also
registers its path); the lines 549-563 block evaluates its `try` body,
which interpolates `sub_id` into the URL f-string — when `sub_id` is
not a module-scope name this raises `NameError`, and the block's only
`except` clause handles `requests.exceptions.HTTPError`, which a
`NameError` is not, so evaluation aborts. Returns the error (if any),
the environment and the routes registered before the abort. -/
def evalModule : List TopStmt → List String → List String →
    Option PyError × List String × List String
  | [], env, routes => (none, env, routes)
  | TopStmt.bind n :: rest, env, routes => evalModule rest (env ++ [n]) routes
  | TopStmt.expr _ :: rest, env, routes => evalModule rest env routes
  | TopStmt.route p n :: rest, env, routes =>
      evalModule rest (env ++ [n]) (routes ++ [p])
  | TopStmt.tryChangeBilling :: rest, env, routes =>
      if "sub_id" ∈ env then evalModule rest env routes
      else (some (PyError.nameError "sub_id"), env, routes)

/-- The top-level statements of src/main.py in source order. Function
and class bodies bind nothing at module scope; only their names do. -/
def mainModule : List TopStmt := [
  TopStmt.bind "os", TopStmt.bind "re", TopStmt.bind "requests",
  TopStmt.bind "time", TopStmt.bind "json", TopStmt.bind "smtplib",
  TopStmt.bind "base64", TopStmt.bind "datetime", TopStmt.bind "BytesIO",
  TopStmt.bind "Optional", TopStmt.bind "List", TopStmt.bind "Dict",
  TopStmt.bind "Any", TopStmt.bind "FastAPI", TopStmt.bind "UploadFile",
  TopStmt.bind "File", TopStmt.bind "HTTPException", TopStmt.bind "status",
  TopStmt.bind "BackgroundTasks", TopStmt.bind "Request", TopStmt.bind "Form",
  TopStmt.bind "JSONResponse", TopStmt.bind "CORSMiddleware",
  TopStmt.bind "BaseModel", TopStmt.bind "BaseSettings",
  TopStmt.bind "MIMEMultipart", TopStmt.bind "MIMEText",
  TopStmt.bind "OpenAI", TopStmt.bind "Image",
  TopStmt.bind "app",
  TopStmt.expr "app.add_middleware CORS",
  TopStmt.bind "Settings",
  TopStmt.bind "settings",
  TopStmt.expr "print ASAAS_API_KEY banner",
  TopStmt.bind "client",
  TopStmt.bind "EmailRequest",
  TopStmt.bind "EnableStudentRequest",
  TopStmt.bind "PaymentRequest",
  TopStmt.bind "ZaiaWebhookRequest",
  TopStmt.bind "generate_headers",
  TopStmt.bind "get_students",
  TopStmt.bind "buscar_aluno_por_email",
  TopStmt.bind "patch_student_action",
  TopStmt.bind "buscar_erros_gramatica",
  TopStmt.bind "asaas_headers",
  TopStmt.bind "get_or_create_customer",
  TopStmt.bind "create_payment",
  TopStmt.bind "get_latest_unpaid_payment",
  TopStmt.bind "create_checkout_flexivel",
  TopStmt.bind "send_whatsapp_via_zaia",
  TopStmt.bind "listar_cobrancas_assinatura",
  TopStmt.bind "allowed_file",
  TopStmt.bind "resize_image",
  TopStmt.bind "analyze_image_with_gpt4",
  TopStmt.bind "send_inactivity_email",
  TopStmt.bind "gerar_resposta_gpt",
  TopStmt.route "/analisar-imagem" "analisar_imagem",
  TopStmt.route "/explicacao-gramatica" "explicacao_gramatica",
  TopStmt.route "/habilitar-aluno" "habilitar_aluno",
  TopStmt.route "/check-inatividade" "check_inatividade",
  TopStmt.route "/enviar-boleto" "enviar_boleto",
  TopStmt.route "/zaia/reenviar-boleto" "zaia_reenviar_boleto",
  TopStmt.tryChangeBilling,
  TopStmt.route "/trocar-assinatura-cartao" "trocar_assinatura_cartao",
  TopStmt.route "/trocar-assinatura-boleto" "trocar_assinatura_boleto",
  TopStmt.expr "if name main: uvicorn.run" ]

/-- A concrete enrollment student used in counterexamples and
witnesses. -/
def anaStudent : Student :=
  { id := "stu1"
    email := "ana@x.com"
    name := "Ana Silva"
    phone := some "+55 11 99999-9999"
    cpf := none
    lastAccess := none }

/-- One enrollment page containing only `anaStudent`. -/
def enrollPages0 : List (List Student) := [[anaStudent]]

/-- An empty billing platform state. -/
def billing0 : AsaasState := ⟨[], [], []⟩

/-- A billing state already holding the customer for `anaStudent`. -/
def anaBilling : AsaasState :=
  ⟨[⟨"cusA", "ana@x.com", "Ana Silva", none, none⟩], [], []⟩

/-- Helper: a filter over a list on which the predicate is everywhere
false is empty. -/
theorem filter_eq_nil_of {α : Type} {p : α → Bool} {l : List α}
    (h : ∀ a ∈ l, p a = false) : l.filter p = [] := by
  induction l with
  | nil => rfl
  | cons a t ih =>
    rw [List.filter_cons, h a (List.mem_cons_self a t)]
    exact ih (fun b hb => h b (List.mem_cons_of_mem a hb))

/-- C1: evaluating src/main.py top to bottom does not succeed — the
module-level try/except block between the `/zaia/reenviar-boleto` and
`/trocar-assinatura-cartao` routes reads the name `sub_id`, which is
never bound at module scope, so module evaluation raises `NameError`
(the block's except clause handles only `requests.exceptions.HTTPError`),
and the two billing-type-switch routes are never registered: the routes
registered before the abort are exactly the first six. -/
theorem module_eval_raises_name_error :
    (evalModule mainModule [] []).1 = some (PyError.nameError "sub_id") ∧
    (evalModule mainModule [] []).2.2 =
      ["/analisar-imagem", "/explicacao-gramatica", "/habilitar-aluno",
       "/check-inatividade", "/enviar-boleto", "/zaia/reenviar-boleto"] := by
  constructor <;> rfl

/-- C9 counterexample: not every remote HTTP call is made with a
bounded timeout — the Customer Resolver's lookup call
(`get_or_create_customer GET /customers`, src/main.py line 123) is
issued with no timeout at all, as are its creation call and the
resend-charge workflow's subscription and payment lookups. -/
theorem http_timeout_cex :
    HttpCallSite.mk "get_or_create_customer GET /customers" none ∈ httpCallSites ∧
    httpCallSites.all (fun c => c.timeoutArg.isSome) = false := by
  constructor
  · decide
  · rfl

/-- C9 amended: every remote HTTP call that passes a timeout passes
exactly 10, but five call sites — the Customer Resolver's lookup and
creation calls, the image-analysis OpenAI call, and the resend-charge
workflow's subscription and payment lookups — pass no timeout and can
block indefinitely. -/
theorem http_timeout_amended :
    (httpCallSites.filter (fun c => c.timeoutArg.isSome = false)).map
        (fun c => c.site) =
      ["get_or_create_customer GET /customers",
       "get_or_create_customer POST /customers",
       "analyze_image_with_gpt4 OpenAI chat.completions",
       "zaia_reenviar_boleto GET /subscriptions",
       "zaia_reenviar_boleto GET /payments"] ∧
    (httpCallSites.filter (fun c => c.timeoutArg.isSome)).all
        (fun c => c.timeoutArg == some 10) = true := by
  constructor <;> rfl

/-- C3 counterexample: when the remote payment creation reports a
non-success status, the error surfaced by `create_payment` carries
neither the remote status code nor the body — it is the same generic
`HTTPException(500, "Erro interno ao gerar pagamento")` for a 422 with
one body and a 503 with another. -/
theorem create_payment_error_cex :
    create_payment (AsaasResp.err 422 "invalid value") =
      Except.error ⟨500, "Erro interno ao gerar pagamento"⟩ ∧
    create_payment (AsaasResp.err 422 "invalid value") =
      create_payment (AsaasResp.err 503 "upstream down") := by
  constructor <;> rfl

/-- C3 amended: for every input on which the remote payment-creation
call does not report success, `create_payment` raises a fixed generic
error, `HTTPException(500, "Erro interno ao gerar pagamento")`: the
exception carrying the remote status code is raised inside the `try`
body but immediately swallowed by the route's own `except Exception`
clause, and the remote status and body are only printed to the log. -/
theorem create_payment_generic_error (status : Nat) (text : String) :
    create_payment (AsaasResp.err status text) =
      Except.error ⟨500, "Erro interno ao gerar pagamento"⟩ ∧
    create_payment AsaasResp.netFail =
      Except.error ⟨500, "Erro interno ao gerar pagamento"⟩ := by
  constructor <;> rfl

/-- C2: for a student with a recorded `lastAccess`, the inactivity scan
classifies them as disabled iff the day difference is at least 10 (and
the disable branch issues exactly the disable action, no warning), as
warned iff it is at least 8 and below 10 (and the warn branch dispatches
exactly the warning, no disable), and otherwise takes no action;
students with no recorded `lastAccess` are skipped; the classification
is the pure function `classify` of `(now, lastAccess)`. -/
theorem classify_inatividade_thresholds (hoje last : Int) (sid email nome : String)
    (phone cpf : Option String) :
    (classify hoje (some last) = ScanAction.disable ↔
      10 ≤ diasSemAcesso hoje last) ∧
    (classify hoje (some last) = ScanAction.warn ↔
      (8 ≤ diasSemAcesso hoje last ∧ diasSemAcesso hoje last < 10)) ∧
    (classify hoje (some last) = ScanAction.noAction ↔
      diasSemAcesso hoje last < 8) ∧
    classify hoje none = ScanAction.skipped ∧
    (classify hoje (some last) = ScanAction.disable →
      scanStudent hoje ⟨sid, email, nome, phone, cpf, some last⟩ =
        (1, 0, [Effect.patchStudent sid "disable"])) ∧
    (classify hoje (some last) = ScanAction.warn →
      scanStudent hoje ⟨sid, email, nome, phone, cpf, some last⟩ =
        (0, 1, [Effect.sendEmail email])) ∧
    scanStudent hoje ⟨sid, email, nome, phone, cpf, none⟩ = (0, 0, []) := by
  refine ⟨?_, ?_, ?_, rfl, ?_, ?_, rfl⟩
  · simp only [classify]
    split_ifs with h1 h2 <;> simp_all
  · simp only [classify]
    split_ifs with h1 h2 <;> simp_all
  · simp only [classify]
    split_ifs with h1 h2 <;> simp_all
    omega
  · intro h
    simp [scanStudent, h]
  · intro h
    simp [scanStudent, h]

/-- C2 witness: eleven days (950400 seconds) since last access is
classified as disabled and the scan step issues the disable action
with no warning; concrete instance of `classify_inatividade_thresholds`. -/
theorem classify_inatividade_thresholds_witness :
    classify 950400 (some 0) = ScanAction.disable ∧
    scanStudent 950400 ⟨"stu1", "ana@x.com", "Ana Silva", none, none, some 0⟩ =
      (1, 0, [Effect.patchStudent "stu1" "disable"]) :=
  ⟨by decide,
   (classify_inatividade_thresholds 950400 0 "stu1" "ana@x.com" "Ana Silva"
      none none).2.2.2.2.1 (by decide)⟩

/-- C10: `get_latest_unpaid_payment` restricts its query to pending
obligations of the fixed instrument (`billingType=BOLETO`): for every
billing state in which none of the customer's pending obligations is a
BOLETO, it returns `none`, even when pending obligations exist. -/
theorem get_latest_unpaid_boleto_only (st : AsaasState) (cid : String)
    (h : ∀ p ∈ st.payments, p.customer = cid → p.status = PayStatus.pending →
      p.billingType ≠ BillingType.boleto) :
    get_latest_unpaid_payment st cid = none := by
  have hnil : pendingBoletos st cid = [] := by
    apply filter_eq_nil_of
    intro p hp
    by_cases h1 : p.customer = cid
    · by_cases h2 : p.status = PayStatus.pending
      · have h3 := h p hp h1 h2
        simp [h1, h2, h3]
      · simp [h1, h2]
    · simp [h1]
  unfold get_latest_unpaid_payment
  rw [hnil]

/-- A billing state whose only pending obligation of customer `cusA`
is a card charge. -/
def cardBilling : AsaasState :=
  ⟨[⟨"cusA", "ana@x.com", "Ana Silva", none, none⟩],
   [⟨"pay0", "cusA", BillingType.creditCard, 150, 30, PayStatus.pending,
     none, none, some "inv-pay0"⟩],
   []⟩

/-- C10 witness: `cusA` has a pending obligation, yet
`get_latest_unpaid_payment` returns `none` because it is a card charge;
concrete instance of `get_latest_unpaid_boleto_only`. -/
theorem get_latest_unpaid_boleto_only_witness :
    cardBilling.payments.filter (fun p =>
        p.customer == "cusA" && p.status == PayStatus.pending) ≠ [] ∧
    get_latest_unpaid_payment cardBilling "cusA" = none :=
  ⟨by decide, get_latest_unpaid_boleto_only cardBilling "cusA" (by decide)⟩

/-- C8: round-trip over the billing state — after a successful
`create_payment` with a future due date for a customer with no other
pending obligations, `get_latest_unpaid_payment` for that customer
returns exactly the just-created obligation. -/
theorem create_payment_roundtrip (st : AsaasState) (cid : String)
    (value due today : Int) (hfuture : today ≤ due)
    (hnone : ∀ p ∈ st.payments, p.customer = cid → p.status ≠ PayStatus.pending) :
    get_latest_unpaid_payment
        (asaasCreatePayment st ⟨cid, BillingType.boleto, value, due, "Mensalidade"⟩ today).1
        cid =
      some (asaasCreatePayment st ⟨cid, BillingType.boleto, value, due, "Mensalidade"⟩ today).2 := by
  have hnil : st.payments.filter (fun p =>
      p.customer == cid &&
      (p.status == PayStatus.pending && p.billingType == BillingType.boleto)) = [] := by
    apply filter_eq_nil_of
    intro p hp
    by_cases h1 : p.customer = cid
    · have h2 := hnone p hp h1
      simp [h1, h2]
    · simp [h1]
  simp only [get_latest_unpaid_payment, pendingBoletos, asaasCreatePayment]
  rw [List.filter_append, hnil]
  simp [minByDueDate, hfuture]

/-- C8 witness: on a billing state holding customer `cusA` and no
payments, creating a BOLETO of value 150 due at day 30 on day 10 and
then querying the latest pending payment returns the created
obligation; concrete instance of `create_payment_roundtrip`. -/
theorem create_payment_roundtrip_witness :
    get_latest_unpaid_payment
        (asaasCreatePayment anaBilling ⟨"cusA", BillingType.boleto, 150, 30, "Mensalidade"⟩ 10).1
        "cusA" =
      some (asaasCreatePayment anaBilling ⟨"cusA", BillingType.boleto, 150, 30, "Mensalidade"⟩ 10).2 :=
  create_payment_roundtrip anaBilling "cusA" 150 30 10 (by decide) (by decide)

/-- C6: `get_or_create_customer` preserves at-most-one-customer-per-
email in a single invocation — it issues the lookup by the normalized
email first, issues a creation POST exactly when the lookup returns no
customer, and for every billing state already holding a customer with
that normalized email it returns that customer's id and changes
nothing. -/
theorem get_or_create_customer_no_duplicate (student : Student) (st : AsaasState) :
    ((get_or_create_customer student st).2.2.any Effect.isPostCustomer = true ↔
      st.customers.filter (fun c => c.email == normalizeEmail student.email) = []) ∧
    (get_or_create_customer student st).2.2.head? =
      some (Effect.getCustomers (normalizeEmail student.email)) ∧
    ∀ c cs,
      st.customers.filter (fun x => x.email == normalizeEmail student.email) = c :: cs →
      (get_or_create_customer student st).1 = c.id ∧
      (get_or_create_customer student st).2.1 = st := by
  cases hf : st.customers.filter (fun c => c.email == normalizeEmail student.email) with
  | nil =>
    refine ⟨?_, ?_, ?_⟩
    · simp [get_or_create_customer, hf, Effect.isPostCustomer]
    · simp [get_or_create_customer, hf]
    · intro c cs hcs
      exact absurd hcs (by simp)
  | cons c0 cs0 =>
    refine ⟨?_, ?_, ?_⟩
    · simp [get_or_create_customer, hf, Effect.isPostCustomer]
    · simp [get_or_create_customer, hf]
    · intro c cs hcs
      injection hcs with h1 h2
      subst h1
      simp [get_or_create_customer, hf]

/-- C6 witness: on a billing state already holding the customer
`cusA` for `ana@x.com`, resolving `anaStudent` returns `cusA` and
leaves the state unchanged; concrete instance of
`get_or_create_customer_no_duplicate`. -/
theorem get_or_create_customer_no_duplicate_witness :
    (get_or_create_customer anaStudent anaBilling).1 = "cusA" ∧
    (get_or_create_customer anaStudent anaBilling).2.1 = anaBilling :=
  (get_or_create_customer_no_duplicate anaStudent anaBilling).2.2
    ⟨"cusA", "ana@x.com", "Ana Silva", none, none⟩ [] (by decide)

/-- C5 counterexample: for the student `ana@x.com`, present in
enrollment but with no active subscription (and no customer yet) on an
empty billing platform, `trocar_assinatura_cartao` does not fail with
NotFound — the internally raised 404 is swallowed by the route's
`except Exception` clause and surfaces as a 500 — and it does not issue
zero mutation calls: the customer-creation POST has already been
issued. -/
theorem trocar_assinatura_no_sub_cex :
    (trocar_assinatura_cartao "ana@x.com" enrollPages0 billing0 20000).1 =
      Except.error ⟨500, "Erro inesperado: 404: Assinatura ativa não encontrada"⟩ ∧
    ((trocar_assinatura_cartao "ana@x.com" enrollPages0 billing0 20000).2.filter
        Effect.isMutation).length = 1 := by
  constructor <;> rfl

/-- C5 amended: for every student found in enrollment whose resolved
billing customer has no active subscription, `trocar_assinatura_cartao`
fails with a 500 error wrapping the internal 404 text, and issues no
subscription-, payment- or student-mutating call; the only possible
mutation is the lazy customer-creation POST, issued exactly when the
billing platform holds no customer for the student's normalized
email. -/
theorem trocar_assinatura_no_sub (email : String) (pages : List (List Student))
    (st : AsaasState) (today : Int) (aluno : Student)
    (hfound : buscar_aluno_por_email pages email = some aluno)
    (hnosub : ((get_or_create_customer aluno st).2.1).subscriptions.filter
        (fun s => s.customer == (get_or_create_customer aluno st).1 &&
          s.status == "ACTIVE") = []) :
    (trocar_assinatura_cartao email pages st today).1 =
      Except.error ⟨500, "Erro inesperado: 404: Assinatura ativa não encontrada"⟩ ∧
    (trocar_assinatura_cartao email pages st today).2.filter
        (fun e => e.isMutation && !e.isPostCustomer) = [] ∧
    ((trocar_assinatura_cartao email pages st today).2.filter
        Effect.isPostCustomer).length =
      (if st.customers.filter (fun c => c.email == normalizeEmail aluno.email) = []
       then 1 else 0) := by
  cases hgc : st.customers.filter (fun c => c.email == normalizeEmail aluno.email) with
  | nil =>
    simp only [get_or_create_customer, hgc] at hnosub
    simp [trocar_assinatura_cartao, hfound, get_or_create_customer, hgc, hnosub,
      Effect.isMutation, Effect.isPostCustomer, httpExceptionStr]
    rfl
  | cons c0 cs0 =>
    simp only [get_or_create_customer, hgc] at hnosub
    simp [trocar_assinatura_cartao, hfound, get_or_create_customer, hgc, hnosub,
      Effect.isMutation, Effect.isPostCustomer, httpExceptionStr]
    rfl

/-- C5 witness: `ana@x.com` with an existing billing customer and no
subscription — the amended behavior at a concrete input; instance of
`trocar_assinatura_no_sub`. -/
theorem trocar_assinatura_no_sub_witness :
    (trocar_assinatura_cartao "ana@x.com" enrollPages0 anaBilling 20000).1 =
      Except.error ⟨500, "Erro inesperado: 404: Assinatura ativa não encontrada"⟩ ∧
    (trocar_assinatura_cartao "ana@x.com" enrollPages0 anaBilling 20000).2.filter
        (fun e => e.isMutation && !e.isPostCustomer) = [] ∧
    ((trocar_assinatura_cartao "ana@x.com" enrollPages0 anaBilling 20000).2.filter
        Effect.isPostCustomer).length =
      (if anaBilling.customers.filter
          (fun c => c.email == normalizeEmail anaStudent.email) = []
       then 1 else 0) :=
  trocar_assinatura_no_sub "ana@x.com" enrollPages0 anaBilling 20000 anaStudent
    (by decide) (by decide)

/-- C4 counterexample: for `ana@x.com` — student found, customer
resolved, payment created (its POST is in the effect trace) — a failing
notification send (Zaia answers 500) makes `enviar_boleto` report a
500 error instead of success with the payment link. -/
theorem enviar_boleto_notification_cex :
    (enviar_boleto ⟨"ana@x.com", 150, 20000⟩ enrollPages0 anaBilling 19990 500).1 =
      Except.error ⟨500, requestsHTTPErrorStr 500⟩ ∧
    Effect.postPayment ⟨"cusA", BillingType.boleto, 150, 20000, "Mensalidade"⟩ ∈
      (enviar_boleto ⟨"ana@x.com", 150, 20000⟩ enrollPages0 anaBilling 19990 500).2 := by
  constructor
  · rfl
  · decide

/-- C4 amended: when student resolution, customer resolution and
payment creation succeed, the payment-creation POST is always issued
(and never rolled back); the operation reports success with the
payment link only when no notification is attempted (no phone digits)
or the notification call succeeds — when a notification is attempted
and its HTTP call fails, the endpoint reports a 500 error carrying the
notification failure, even though the payment was created. -/
theorem enviar_boleto_notification_independence (req : PaymentRequest)
    (pages : List (List Student)) (st : AsaasState) (today : Int)
    (zaiaStatus : Nat) (aluno : Student)
    (hfound : buscar_aluno_por_email pages req.email = some aluno) :
    Effect.postPayment
        ⟨(get_or_create_customer aluno st).1, BillingType.boleto,
         req.valor, req.vencimento, "Mensalidade"⟩ ∈
      (enviar_boleto req pages st today zaiaStatus).2 ∧
    ((digitsOnly (aluno.phone.getD "") = "" ∨ zaiaStatus < 400) →
      (enviar_boleto req pages st today zaiaStatus).1 =
        Except.ok ⟨"enviado",
          some ("slip-" ++ newPaymentId (get_or_create_customer aluno st).2.1)⟩) ∧
    ((digitsOnly (aluno.phone.getD "") ≠ "" ∧ 400 ≤ zaiaStatus) →
      (enviar_boleto req pages st today zaiaStatus).1 =
        Except.error ⟨500, requestsHTTPErrorStr zaiaStatus⟩) := by
  refine ⟨?_, ?_, ?_⟩
  · simp only [enviar_boleto, hfound, asaasCreatePayment]
    by_cases hw : digitsOnly (aluno.phone.getD "") = "" <;>
      by_cases hz : zaiaStatus < 400 <;>
        simp [hw, hz, List.mem_append]
  · intro h
    simp only [enviar_boleto, hfound, asaasCreatePayment]
    rcases h with hw | hz
    · simp [hw, Option.orElse]
    · by_cases hw : digitsOnly (aluno.phone.getD "") = "" <;>
        simp [hw, hz, Option.orElse]
  · intro h
    have hz : ¬ zaiaStatus < 400 := by omega
    simp only [enviar_boleto, hfound, asaasCreatePayment]
    simp [h.1, hz]

/-- C4 witness: concrete instance of
`enviar_boleto_notification_independence` — with a succeeding
notification (Zaia answers 200) the payment POST is issued and the
endpoint reports success with the slip link. -/
theorem enviar_boleto_notification_independence_witness :
    Effect.postPayment
        ⟨(get_or_create_customer anaStudent anaBilling).1, BillingType.boleto,
         150, 20000, "Mensalidade"⟩ ∈
      (enviar_boleto ⟨"ana@x.com", 150, 20000⟩ enrollPages0 anaBilling 19990 200).2 ∧
    (enviar_boleto ⟨"ana@x.com", 150, 20000⟩ enrollPages0 anaBilling 19990 200).1 =
      Except.ok ⟨"enviado",
        some ("slip-" ++ newPaymentId (get_or_create_customer anaStudent anaBilling).2.1)⟩ :=
  ⟨(enviar_boleto_notification_independence ⟨"ana@x.com", 150, 20000⟩ enrollPages0
      anaBilling 19990 200 anaStudent (by decide)).1,
   (enviar_boleto_notification_independence ⟨"ana@x.com", 150, 20000⟩ enrollPages0
      anaBilling 19990 200 anaStudent (by decide)).2.1 (Or.inr (by decide))⟩

/-- Helper: any customer-creation POST issued by
`get_or_create_customer` carries the student's stripped name and
normalized email. -/
theorem get_or_create_customer_payload (student : Student) (st : AsaasState) :
    ∀ p, Effect.postCustomer p ∈ (get_or_create_customer student st).2.2 →
      p.name = pyStrip student.name ∧ p.email = normalizeEmail student.email := by
  intro p hp
  cases hf : st.customers.filter (fun c => c.email == normalizeEmail student.email) with
  | nil =>
    simp [get_or_create_customer, hf] at hp
    subst hp
    exact ⟨rfl, rfl⟩
  | cons c0 cs0 =>
    simp [get_or_create_customer, hf] at hp

/-- C7 counterexample: the student `ana@x.com` IS found in enrollment
(with real name "Ana Silva"), yet `zaia_reenviar_boleto` — which never
consults enrollment — still issues a customer creation whose name is
the placeholder email, refuting "creating a customer with a
placeholder name equal to the email only in the case where the student
is not found in enrollment". -/
theorem zaia_reenviar_placeholder_cex :
    buscar_aluno_por_email enrollPages0 "ana@x.com" = some anaStudent ∧
    anaStudent.name = "Ana Silva" ∧
    Effect.postCustomer ⟨"ana@x.com", "ana@x.com", none, none⟩ ∈
      (zaia_reenviar_boleto "ana@x.com" billing0).2 := by
  refine ⟨by decide, rfl, by decide⟩

/-- C7 amended: `zaia_reenviar_boleto` derives the billing customer
from a fictitious student built from the bare email without consulting
enrollment, so any customer creation it issues uses the (stripped)
email itself as the placeholder name, whether or not the student
exists in enrollment; it then takes the first ACTIVE subscription of
the customer and that subscription's first PENDING obligation,
reporting the absence of either as a normal `erro` response value
(HTTP 200), not a raised error. -/
theorem zaia_reenviar_boleto_behavior (email : String) (st : AsaasState)
    (h : email ≠ "") :
    (∀ p, Effect.postCustomer p ∈ (zaia_reenviar_boleto email st).2 →
      p.name = pyStrip email ∧ p.email = normalizeEmail email) ∧
    ((((get_or_create_customer (fictStudent email) st).2.1).subscriptions.filter
        (fun s => s.customer == (get_or_create_customer (fictStudent email) st).1)).find?
          (fun s => s.status == "ACTIVE") = none →
      (zaia_reenviar_boleto email st).1 =
        ZaiaResp.erro "Nenhuma assinatura ativa encontrada") ∧
    (∀ sub,
      (((get_or_create_customer (fictStudent email) st).2.1).subscriptions.filter
        (fun s => s.customer == (get_or_create_customer (fictStudent email) st).1)).find?
          (fun s => s.status == "ACTIVE") = some sub →
      ((get_or_create_customer (fictStudent email) st).2.1).payments.filter
        (fun p => p.subscription == some sub.id && p.status == PayStatus.pending) = [] →
      (zaia_reenviar_boleto email st).1 =
        ZaiaResp.erro "Nenhuma cobrança pendente encontrada") := by
  refine ⟨?_, ?_, ?_⟩
  · intro p hp
    cases hfind : (((get_or_create_customer (fictStudent email) st).2.1).subscriptions.filter
        (fun s => s.customer == (get_or_create_customer (fictStudent email) st).1)).find?
          (fun s => s.status == "ACTIVE") with
    | none =>
      simp only [zaia_reenviar_boleto, if_neg h, hfind] at hp
      simp [List.mem_append] at hp
      exact get_or_create_customer_payload (fictStudent email) st p hp
    | some sub =>
      cases hpay : ((get_or_create_customer (fictStudent email) st).2.1).payments.filter
          (fun q => q.subscription == some sub.id && q.status == PayStatus.pending) with
      | nil =>
        simp only [zaia_reenviar_boleto, if_neg h, hfind, hpay] at hp
        simp [List.mem_append] at hp
        exact get_or_create_customer_payload (fictStudent email) st p hp
      | cons c0 cs0 =>
        simp only [zaia_reenviar_boleto, if_neg h, hfind, hpay] at hp
        simp [List.mem_append] at hp
        exact get_or_create_customer_payload (fictStudent email) st p hp
  · intro hfind
    simp [zaia_reenviar_boleto, if_neg h, hfind]
  · intro sub hfind hpay
    simp [zaia_reenviar_boleto, if_neg h, hfind, hpay]

/-- C7 witness: concrete instance of `zaia_reenviar_boleto_behavior` —
for `bob@x.com` on an empty billing platform there is no active
subscription and the workflow answers the normal "nothing to resend"
`erro` value. -/
theorem zaia_reenviar_boleto_behavior_witness :
    (zaia_reenviar_boleto "bob@x.com" billing0).1 =
      ZaiaResp.erro "Nenhuma assinatura ativa encontrada" :=
  (zaia_reenviar_boleto_behavior "bob@x.com" billing0 (by decide)).2.1 (by decide)
